import Mathlib

/-!
# Verification of the Pravah_S house-price service (backend/app/ml)

Shallow embedding, in Lean 4, of the data-cleaning functions
(`app/ml/preprocessing.py`) and of the prediction engine
(`app/ml/predictor.py`) of the repository, together with theorems that
settle the specification claims about them.

Modelling conventions:

* Python scalar values reaching the field cleaners are modelled by `RawVal`
  (None, str, int, float).  Python `float` values are modelled exactly as
  extended rationals (`PyFloat`): a finite rational, `inf`, `-inf` or `nan`.
  IEEE-754 binary rounding is not modelled; every concrete value examined by
  a theorem below is exactly representable, so no behaviour relevant to the
  claims depends on this.
* Exceptions are explicit: a cleaner returns `Except PyExn (Option _)`
  (`.ok none` is the MISSING marker, `.error` is a raised exception), and
  `load_model` returns the raised exception (if any) together with the
  post-state of the mutated engine object.
* Python `str.strip` / `str.lower` / `str.upper` are modelled on ASCII data
  (`trimChars`, `Char.toLower`, `Char.toUpper`); all strings in the claims
  are ASCII.
* Python `float(str)` is modelled by `pyFloatParse`: optional surrounding
  whitespace and sign, the case-insensitive keywords inf/infinity/nan, and
  decimal literals with optional fraction and exponent.  (Digit-group
  underscores are not modelled; no claim uses them.)  Decimal values of
  magnitude at least `2^1024` overflow to a signed infinity, as in CPython;
  the exact IEEE overflow boundary near 1.8e308 is not modelled and no claim
  examines that region.
* `np.std` and the scikit-learn model/scaler/encoder are external black
  boxes (the spec itself treats the regressor as a replaceable black box):
  they enter the embedding as function parameters, and theorems assume only
  what is true of them (e.g. a standard deviation is nonnegative).
-/

set_option maxRecDepth 16384

deriving instance DecidableEq for Except

namespace Pravah

/-- Python `float` values: an exact finite rational, or one of the three
special values.  (Binary rounding of real CPython floats is not modelled.) -/
inductive PyFloat where
  | finite (q : ℚ)
  | inf
  | neginf
  | nan
deriving DecidableEq, Repr

/-- Python scalar values as they reach the field cleaners. -/
inductive RawVal where
  | none
  | str (s : String)
  | int (n : ℤ)
  | float (f : PyFloat)
deriving DecidableEq, Repr

/-- The Python exceptions that can arise in the embedded code. -/
inductive PyExn where
  | valueError
  | overflowError
  | keyError (key : String)
  | runtimeError
  | fileNotFoundError
  | zeroDivisionError
  | attributeError
deriving DecidableEq, Repr

/-- `pd.isna` on scalars: true exactly for `None` and float `nan`. -/
def pdIsna : RawVal → Bool
  | RawVal.none => true
  | RawVal.float PyFloat.nan => true
  | _ => false

/-- Digits of the decimal expansion of a nonnegative rational with
denominator `10^k`, used only by `reprFloat` (never by a claim theorem). -/
def reprFloat : PyFloat → String
  | PyFloat.inf => "inf"
  | PyFloat.neginf => "-inf"
  | PyFloat.nan => "nan"
  | PyFloat.finite q =>
      if q.den = 1 then toString q.num ++ ".0" else toString q

/-- Python `str()` of a scalar.  For non-integral floats CPython prints the
shortest round-tripping decimal; that case is not modelled faithfully
(`reprFloat` falls back to `num/den` form) and is never exercised by any
theorem below — the cleaners in the claims are only evaluated on string,
int, `None`, `nan` and `inf` inputs. -/
def pyStrOf : RawVal → String
  | RawVal.none => "None"
  | RawVal.str s => s
  | RawVal.int n => toString n
  | RawVal.float f => reprFloat f

/-- Characters stripped by Python `str.strip()` (ASCII whitespace). -/
def isPySpace (c : Char) : Bool :=
  c = ' ' || c = '\t' || c = '\n' || c = '\r' || c.toNat = 11 || c.toNat = 12

/-- Python `str.strip()` on a character list. -/
def trimChars (cs : List Char) : List Char :=
  ((cs.dropWhile isPySpace).reverse.dropWhile isPySpace).reverse

/-- Python `str.strip()`. -/
def pyStrip (s : String) : String := String.mk (trimChars s.data)

/-- Python `str.lower()` (ASCII). -/
def pyLower (s : String) : String := String.mk (s.data.map Char.toLower)

/-- Python `str.upper()` (ASCII). -/
def pyUpper (s : String) : String := String.mk (s.data.map Char.toUpper)

/-- Python `s.replace("BHK", "")`: remove non-overlapping occurrences of
`"BHK"`, scanning left to right. -/
def stripBHK : List Char → List Char
  | 'B' :: 'H' :: 'K' :: rest => stripBHK rest
  | c :: rest => c :: stripBHK rest
  | [] => []

/-- Value of a digit string (most significant first). -/
def digitsToNat (cs : List Char) : ℕ :=
  cs.foldl (fun a c => a * 10 + (c.toNat - 48)) 0

/-- Split off a leading run of decimal digits. -/
def spanDigits (cs : List Char) : List Char × List Char :=
  (cs.takeWhile Char.isDigit, cs.dropWhile Char.isDigit)

/-- Parse an unsigned Python decimal float literal (already lowercased):
`digits [. digits] [e [sign] digits]` with at least one mantissa digit.
Returns its exact rational value. -/
def parseUnsigned (cs : List Char) : Option ℚ :=
  let p1 := spanDigits cs
  let ip := p1.1
  let p2 : List Char × List Char :=
    match p1.2 with
    | '.' :: rest => spanDigits rest
    | r1 => ([], r1)
  let fp := p2.1
  if ip.isEmpty && fp.isEmpty then Option.none
  else
    let mant : ℚ := (digitsToNat ip : ℚ) + mkRat (digitsToNat fp) ((10 : ℕ) ^ fp.length)
    match p2.2 with
    | [] => Option.some mant
    | 'e' :: rest =>
        let p3 : Bool × List Char :=
          match rest with
          | '+' :: t => (false, t)
          | '-' :: t => (true, t)
          | t => (false, t)
        let p4 := spanDigits p3.2
        if p4.1.isEmpty || !p4.2.isEmpty then Option.none
        else
          let e := digitsToNat p4.1
          Option.some (if p3.1 then mant * mkRat 1 ((10 : ℕ) ^ e)
                       else mant * (((10 : ℕ) ^ e : ℕ) : ℚ))
    | _ => Option.none

/-- `2 ^ 1024`, written as a numeral so that evaluation never unfolds a
1024-deep recursion (see `floatOverflowThreshold_eq`). -/
def floatOverflowThreshold : ℕ :=
  179769313486231590772930519078902473361797697894230657273430081157732675805500963132708477322407536021120113879871393357658789768814416622492847430639474124377767893424865485276302219601246094119453082952085005768838150682342462881473913110540827237163350510684586298239947245938479716304835356329624224137216

/-- Python `float(str)`: `none` models a raised `ValueError`.  Values of
magnitude at least `2^1024` overflow to a signed infinity (CPython's
string-to-float conversion returns an infinity on overflow, it does not
raise). -/
def pyFloatParse (s : String) : Option PyFloat :=
  let cs := trimChars s.data
  let sgnBody : Bool × List Char :=
    match cs with
    | '+' :: t => (false, t)
    | '-' :: t => (true, t)
    | t => (false, t)
  let neg := sgnBody.1
  let low := sgnBody.2.map Char.toLower
  if low = "inf".data || low = "infinity".data then
    Option.some (if neg then PyFloat.neginf else PyFloat.inf)
  else if low = "nan".data then Option.some PyFloat.nan
  else
    match parseUnsigned low with
    | Option.none => Option.none
    | Option.some q =>
        if floatOverflowThreshold * q.den ≤ q.num.natAbs then
          Option.some (if neg then PyFloat.neginf else PyFloat.inf)
        else Option.some (PyFloat.finite (if neg then -q else q))

/-- Truncation toward zero, the semantics of Python `int(float)` on finite
values. -/
def pyTrunc (q : ℚ) : ℤ := if 0 ≤ q then ⌊q⌋ else -⌊-q⌋

/-- Python `int(f)` for a float `f`: `ValueError` on `nan`, `OverflowError`
on the infinities, truncation toward zero otherwise. -/
def pyIntOfFloat : PyFloat → Except PyExn ℤ
  | PyFloat.finite q => Except.ok (pyTrunc q)
  | PyFloat.nan => Except.error PyExn.valueError
  | PyFloat.inf => Except.error PyExn.overflowError
  | PyFloat.neginf => Except.error PyExn.overflowError

/-- Python `f <= 0` for a float `f` (`nan` compares false). -/
def pyLeZero : PyFloat → Bool
  | PyFloat.finite q => decide (q ≤ 0)
  | PyFloat.inf => false
  | PyFloat.neginf => true
  | PyFloat.nan => false

/-! ## The location registry (`preprocessing.py`, `LOCATION_ALIASES`) -/

/-- `LOCATION_ALIASES`: lowercase alias → canonical name. -/
def LOCATION_ALIASES : List (String × String) :=
  [("airoli", "Airoli"),
   ("belapur", "Belapur"),
   ("cbd belapur", "CBD Belapur"),
   ("ghansoli", "Ghansoli"),
   ("kharghar", "Kharghar"),
   ("kopar khairane", "Kopar Khairane"),
   ("nerul", "Nerul"),
   ("panvel", "Panvel"),
   ("sanpada", "Sanpada"),
   ("ulwe", "Ulwe"),
   ("vashi", "Vashi"),
   ("juinagar", "Juinagar"),
   ("rabale", "Rabale"),
   ("taloja", "Taloja")]

/-! ## The field cleaners (`preprocessing.py`) -/

/-- `normalize_location`: canonical name via the alias table, `None` for
missing/empty/unknown input. -/
def normalize_location (v : RawVal) : Option String :=
  if pdIsna v then Option.none
  else if pyStrip (pyStrOf v) = "" then Option.none
  else LOCATION_ALIASES.lookup (pyLower (pyStrip (pyStrOf v)))

/-- `re.sub(r"[₹,INR\s]", "", s)`: delete the rupee sign, commas, the
(uppercase) letters I N R, and whitespace characters. -/
def stripPriceChars (cs : List Char) : List Char :=
  cs.filter (fun c =>
    !(c = '₹' || c = ',' || c = 'I' || c = 'N' || c = 'R' || isPySpace c))

/-- `clean_price`: parse a price, rejecting nonpositive values.  Only
`float()`'s `ValueError` is caught (and `float(str)` raises nothing else),
so this cleaner never raises. -/
def clean_price (v : RawVal) : Except PyExn (Option PyFloat) :=
  if pdIsna v then Except.ok Option.none
  else
    let s := stripPriceChars (trimChars (pyStrOf v).data)
    match pyFloatParse (String.mk s) with
    | Option.none => Except.ok Option.none
    | Option.some f =>
        if pyLeZero f then Except.ok Option.none else Except.ok (Option.some f)

/-- `clean_bhk`: strip a `BHK` suffix, parse `int(float(_))`, keep values in
`[1, 6]`.  The `try` block catches only `ValueError`; `int()` of an infinite
float raises `OverflowError`, which propagates. -/
def clean_bhk (v : RawVal) : Except PyExn (Option ℤ) :=
  if pdIsna v then Except.ok Option.none
  else
    let s1 := (trimChars (pyStrOf v).data).map Char.toUpper
    let s2 := trimChars (stripBHK s1)
    match pyFloatParse (String.mk s2) with
    | Option.none => Except.ok Option.none
    | Option.some f =>
        match pyIntOfFloat f with
        | Except.error PyExn.valueError => Except.ok Option.none
        | Except.error e => Except.error e
        | Except.ok bhk =>
            if 1 ≤ bhk ∧ bhk ≤ 6 then Except.ok (Option.some bhk)
            else Except.ok Option.none

/-- `clean_floor`: `"ground"` (case-insensitive) is floor 0, otherwise
`int(float(_))` kept in `[0, 100]`.  As in `clean_bhk`, only `ValueError`
is caught. -/
def clean_floor (v : RawVal) : Except PyExn (Option ℤ) :=
  if pdIsna v then Except.ok Option.none
  else
    let s := (trimChars (pyStrOf v).data).map Char.toLower
    if s = "ground".data then Except.ok (Option.some 0)
    else
      match pyFloatParse (String.mk s) with
      | Option.none => Except.ok Option.none
      | Option.some f =>
          match pyIntOfFloat f with
          | Except.error PyExn.valueError => Except.ok Option.none
          | Except.error e => Except.error e
          | Except.ok fl =>
              if 0 ≤ fl ∧ fl ≤ 100 then Except.ok (Option.some fl)
              else Except.ok Option.none

/-- `clean_yes_no`: fixed affirmative/negative token sets, else missing. -/
def clean_yes_no (v : RawVal) : Except PyExn (Option ℤ) :=
  if pdIsna v then Except.ok Option.none
  else
    let s := String.mk ((trimChars (pyStrOf v).data).map Char.toLower)
    if s = "yes" || s = "y" || s = "1" || s = "true" then Except.ok (Option.some 1)
    else if s = "no" || s = "n" || s = "0" || s = "false" then Except.ok (Option.some 0)
    else Except.ok Option.none

/-! ## Rounding (Python `round`) -/

/-- Python `round(x)` to an integer: round half to even (banker's
rounding), modelled exactly on rationals. -/
def pyRound (q : ℚ) : ℤ :=
  if Int.fract q < 1/2 then ⌊q⌋
  else if 1/2 < Int.fract q then ⌊q⌋ + 1
  else if ⌊q⌋ % 2 = 0 then ⌊q⌋ else ⌊q⌋ + 1

/-- Python `round(x, 2)`: round half to even at two decimal places.
(CPython rounds the underlying binary float; on the exact decimal values
arising in the claims the two agree.) -/
def pyRound2 (q : ℚ) : ℚ := (pyRound (q * 100) : ℚ) / 100

/-! ## The prediction engine (`predictor.py`) -/

/-- The trained regressor, a black box exposing `predict` and
`staged_predict` on a scaled feature row (the spec treats the model family
as replaceable behind exactly this capability contract). -/
structure GBRModel where
  predict : List ℚ → ℚ
  staged_predict : List ℚ → List ℚ

/-- Per-location statistics dictionary from the bundle; `Option` fields
model possibly-absent dictionary keys (`.get(_, 0)` at the use sites). -/
structure LocStats where
  count : Option ℚ := Option.none
  mean_price : Option ℚ := Option.none
  median_price : Option ℚ := Option.none
  min_price : Option ℚ := Option.none
  max_price : Option ℚ := Option.none
  avg_price_per_sqft : Option ℚ := Option.none

/-- The mutable state of a `PredictionEngine` object.  `Option` on
`model`/`scaler`/`label_encoder` models the `None` initial values. -/
structure Inst where
  initialized : Bool
  model : Option GBRModel
  scaler : Option (List (Option ℚ) → List ℚ)
  label_encoder : Option (String → ℚ)
  features : List String
  location_classes : List String
  location_stats : List (String × LocStats)
  train_metrics : List (String × ℚ)
  test_metrics : List (String × ℚ)
  feature_importance : List (String × ℚ)

/-- A deserialized model-bundle dictionary; an `Option.none` field models an
absent key. -/
structure Bundle where
  model : Option GBRModel := Option.none
  scaler : Option (List (Option ℚ) → List ℚ) := Option.none
  label_encoder : Option (String → ℚ) := Option.none
  features : Option (List String) := Option.none
  location_classes : Option (List String) := Option.none
  location_stats : Option (List (String × LocStats)) := Option.none
  train_metrics : Option (List (String × ℚ)) := Option.none
  test_metrics : Option (List (String × ℚ)) := Option.none
  feature_importance : Option (List (String × ℚ)) := Option.none

/-- The five bundle keys `load_model` reads by direct indexing (all other
keys are read with `.get` and a default). -/
def has_required_keys (b : Bundle) : Bool :=
  b.model.isSome && b.scaler.isSome && b.label_encoder.isSome &&
    b.features.isSome && b.location_classes.isSome

/-- `PredictionEngine.load_model`, as a transition on the engine object's
state.  The artifact is `Option.none` when the file does not exist
(`FileNotFoundError` before any mutation).  The bundle's keys are read and
assigned strictly in source order — `model`, `scaler`, `label_encoder`,
`features`, `location_classes` by direct indexing (a missing key raises
`KeyError` at that point, leaving the previously assigned fields in place),
then `location_stats`, `train_metrics`, `test_metrics`,
`feature_importance` via `.get` with defaults.  The returned pair is
(raised exception if any, state of the engine object afterwards). -/
def load_model (s : Inst) (artifact : Option Bundle) : Option PyExn × Inst :=
  match artifact with
  | Option.none => (Option.some PyExn.fileNotFoundError, s)
  | Option.some b =>
    match b.model with
    | Option.none => (Option.some (PyExn.keyError "model"), s)
    | Option.some m =>
      let s1 := { s with model := Option.some m }
      match b.scaler with
      | Option.none => (Option.some (PyExn.keyError "scaler"), s1)
      | Option.some sc =>
        let s2 := { s1 with scaler := Option.some sc }
        match b.label_encoder with
        | Option.none => (Option.some (PyExn.keyError "label_encoder"), s2)
        | Option.some le =>
          let s3 := { s2 with label_encoder := Option.some le }
          match b.features with
          | Option.none => (Option.some (PyExn.keyError "features"), s3)
          | Option.some fs =>
            let s4 := { s3 with features := fs }
            match b.location_classes with
            | Option.none => (Option.some (PyExn.keyError "location_classes"), s4)
            | Option.some lc =>
              (Option.none,
               { s4 with location_classes := lc,
                         location_stats := b.location_stats.getD [],
                         train_metrics := b.train_metrics.getD [],
                         test_metrics := b.test_metrics.getD [],
                         feature_importance := b.feature_importance.getD [] })

/-- `PredictionEngine.is_loaded`: the model attribute is not `None`. -/
def is_loaded (s : Inst) : Bool := s.model.isSome

/-- Line 174 of `predictor.py`:
`max(0.5, min(1.0, 1.0 - (std_dev / max_std)))`. -/
def confidence_score (std_dev max_std : ℚ) : ℚ :=
  max (1/2) (min 1 (1 - std_dev / max_std))

/-- Line 177 of `predictor.py`: `0.08 + (1 - confidence_score) * 0.04`. -/
def price_margin (confidence : ℚ) : ℚ := 8/100 + (1 - confidence) * (4/100)

/-- Modelled from the spec's words: `clamp(x, lo, hi)`, the conventional
bounded value `min hi (max lo x)`. -/
def clamp (x lo hi : ℚ) : ℚ := min hi (max lo x)

/-- Python `xs[-n:]`: the last `n` elements (all of them when the list is
shorter). -/
def lastN (n : ℕ) (xs : List ℚ) : List ℚ := xs.drop (xs.length - n)

/-- The result dictionary assembled by `PredictionEngine.predict`
(`round(_, 0)` values are integers; `input_summary` fields carry the `in_`
prefix; `location_context` fields are inlined with their `.get(_, 0)`
defaults applied). -/
structure PredictResult where
  predicted_price : ℤ
  price_low : ℤ
  price_high : ℤ
  price_per_sqft : ℤ
  confidence_score : ℚ
  location_name : String
  avg_price : ℚ
  median_price : ℚ
  avg_price_per_sqft : ℚ
  data_points : ℚ
  feature_importance : List (String × ℚ)
  in_location : String
  in_area_sqft : ℚ
  in_bhk : ℤ
  in_bathrooms : ℤ
  in_floor : ℤ
  in_total_floors : ℤ
  in_age_of_property : ℚ
  in_parking : Bool
  in_lift : Bool
deriving DecidableEq, Repr

/-- `PredictionEngine.predict`.  `npStd` is NumPy's `np.std` on the staged
prediction values, passed in as a black box (its value is an irrational
square root in general; theorems assume only its nonnegativity).  Raised
exceptions: `RuntimeError` when unloaded (checked first), `ValueError` for
a location outside `location_classes` (checked before the encoder, scaler
or model is touched), `AttributeError` if a partially loaded state has
`scaler`/`label_encoder` still `None`, `ZeroDivisionError` when
`predicted_price * 0.15 == 0` (float division by zero in
`std_dev / max_std`). -/
def feature_values_of (location_encoded area_sqft : ℚ)
    (bhk bathrooms floor total_floors : ℤ) (age_of_property : ℚ)
    (parking lift : ℤ) : List (String × ℚ) :=
  [("location", location_encoded), ("area_sqft", area_sqft),
   ("bhk", (bhk : ℚ)), ("bathrooms", (bathrooms : ℚ)),
   ("floor", (floor : ℚ)), ("total_floors", (total_floors : ℚ)),
   ("age_of_property", age_of_property), ("parking", (parking : ℚ)),
   ("lift", (lift : ℚ))]

/-- `pd.DataFrame([feature_values], columns=self.features)` followed by
`self.scaler.transform`: the columns are selected *by name* in the bundle's
declared feature order (a name absent from the dict would give a NaN
column, hence the `Option ℚ` entries), then scaled. -/
def input_scaled_of (sc : List (Option ℚ) → List ℚ) (features : List String)
    (feature_values : List (String × ℚ)) : List ℚ :=
  sc (features.map (fun f => feature_values.lookup f))

def predict (npStd : List ℚ → ℚ) (s : Inst) (location : String) (area_sqft : ℚ)
    (bhk bathrooms floor total_floors : ℤ) (age_of_property : ℚ)
    (parking lift : ℤ) : Except PyExn PredictResult :=
  if is_loaded s = false then Except.error PyExn.runtimeError
  else if location ∈ s.location_classes then
    match s.model, s.scaler, s.label_encoder with
    | Option.some m, Option.some sc, Option.some le =>
      let location_encoded := le location
      let input_scaled :=
        input_scaled_of sc s.features
          (feature_values_of location_encoded area_sqft bhk bathrooms floor
            total_floors age_of_property parking lift)
      let predicted_price := m.predict input_scaled
      let staged_predictions := m.staged_predict input_scaled
      let last_n := lastN 20 staged_predictions
      let std_dev := npStd last_n
      let max_std := predicted_price * (15/100)
      if max_std = 0 then Except.error PyExn.zeroDivisionError
      else
        let conf := confidence_score std_dev max_std
        let margin := price_margin conf
        let price_low := predicted_price * (1 - margin)
        let price_high := predicted_price * (1 + margin)
        let pps := if 0 < area_sqft then predicted_price / area_sqft else 0
        let stats := (s.location_stats.lookup location).getD {}
        Except.ok
          { predicted_price := pyRound predicted_price,
            price_low := pyRound price_low,
            price_high := pyRound price_high,
            price_per_sqft := pyRound pps,
            confidence_score := pyRound2 conf,
            location_name := location,
            avg_price := stats.mean_price.getD 0,
            median_price := stats.median_price.getD 0,
            avg_price_per_sqft := stats.avg_price_per_sqft.getD 0,
            data_points := stats.count.getD 0,
            feature_importance := s.feature_importance,
            in_location := location,
            in_area_sqft := area_sqft,
            in_bhk := bhk,
            in_bathrooms := bathrooms,
            in_floor := floor,
            in_total_floors := total_floors,
            in_age_of_property := age_of_property,
            in_parking := decide (parking ≠ 0),
            in_lift := decide (lift ≠ 0) }
    | _, _, _ => Except.error PyExn.attributeError
  else Except.error PyExn.valueError

/-- The state of a freshly allocated `PredictionEngine` object right after
`__new__` set `_initialized = False` (the remaining attributes are assigned
by `__init__` before they can be observed). -/
def freshInst : Inst :=
  { initialized := false, model := Option.none, scaler := Option.none,
    label_encoder := Option.none, features := [], location_classes := [],
    location_stats := [], train_metrics := [], test_metrics := [],
    feature_importance := [] }

/-- `PredictionEngine.__init__`: returns early when `_initialized` is
already true, otherwise sets the flag and assigns every attribute its empty
initial value. -/
def init_engine (i : Inst) : Inst :=
  if i.initialized then i
  else { freshInst with initialized := true }

/-- `PredictionEngine()` — `__new__` then `__init__` — as a transition on
the class-level `_instance` slot.  The pair is (state of the returned
object, `_instance` afterwards); since `__new__` stores the object it
returns, the two components always describe the same object. -/
def engine_construct (g : Option Inst) : Inst × Option Inst :=
  match g with
  | Option.none =>
      let i := init_engine freshInst
      (i, Option.some i)
  | Option.some inst =>
      let i := init_engine inst
      (i, Option.some i)

/-! ## Preprocessing step 12 (`preprocess_dataset`, lines 251-259) -/

/-- A row of the cleaned table as it stands entering step 11/12 of
`preprocess_dataset` (steps 1-10 have already typed every field). -/
structure Row where
  location : String
  area_sqft : ℚ
  bhk : ℤ
  bathrooms : ℤ
  floor : ℤ
  total_floors : ℤ
  age_of_property : ℚ
  parking : ℤ
  lift : ℤ
  actual_price : ℚ
deriving DecidableEq, Repr

/-- Steps 11-12 of `preprocess_dataset`: attach the derived
`price_per_sqft` column, keep rows with `price_per_sqft > 2000`, then rows
with `price_per_sqft < 50000`, then drop the helper column. -/
def pps_filter_step (rows : List Row) : List Row :=
  (((rows.map (fun r => (r, r.actual_price / r.area_sqft))).filter
        (fun p => decide ((2000 : ℚ) < p.2))).filter
      (fun p => decide (p.2 < (50000 : ℚ)))).map Prod.fst

/-! ## Concrete instances used by witnesses and counterexamples -/

/-- The bundle's ordered feature list (§6 of the spec,
`get_feature_columns` in `preprocessing.py`). -/
def standardFeatures : List String :=
  ["location", "area_sqft", "bhk", "bathrooms", "floor", "total_floors",
   "age_of_property", "parking", "lift"]

/-- A fully loaded engine state built from given black-box components. -/
def mkLoadedInst (m : GBRModel) (sc : List (Option ℚ) → List ℚ)
    (le : String → ℚ) (lc : List String)
    (stats : List (String × LocStats)) : Inst :=
  { initialized := true, model := Option.some m, scaler := Option.some sc,
    label_encoder := Option.some le, features := standardFeatures,
    location_classes := lc, location_stats := stats, train_metrics := [],
    test_metrics := [], feature_importance := [] }

/-- A trivial stand-in regressor for concrete evaluations. -/
def demoModel : GBRModel :=
  { predict := fun _ => 5000000, staged_predict := fun _ => [5000000, 5000000] }

def demoScaler : List (Option ℚ) → List ℚ := fun _ => []

def demoEncoder : String → ℚ := fun _ => 0

/-- Stand-in for `np.std` that reports zero dispersion. -/
def demoStd : List ℚ → ℚ := fun _ => 0

def demoInst : Inst := mkLoadedInst demoModel demoScaler demoEncoder ["Kharghar"] []

/-- The result `predict` produces on `demoInst` for the §8 end-to-end
input, written out explicitly. -/
def demoResult : PredictResult :=
  { predicted_price := 5000000, price_low := 4600000, price_high := 5400000,
    price_per_sqft := 5000, confidence_score := 1, location_name := "Kharghar",
    avg_price := 0, median_price := 0, avg_price_per_sqft := 0,
    data_points := 0, feature_importance := [], in_location := "Kharghar",
    in_area_sqft := 1000, in_bhk := 2, in_bathrooms := 2, in_floor := 5,
    in_total_floors := 20, in_age_of_property := 5, in_parking := true,
    in_lift := true }

/-- A bundle with every key absent. -/
def emptyBundle : Bundle := {}

/-- A structurally corrupt bundle: `model` present, `scaler` (and the
rest) absent. -/
def corruptBundle : Bundle := { model := Option.some demoModel }

/-- A bundle carrying exactly the five directly-indexed keys and none of
the `.get`-defaulted ones. -/
def minimalBundle : Bundle :=
  { model := Option.some demoModel, scaler := Option.some demoScaler,
    label_encoder := Option.some demoEncoder,
    features := Option.some standardFeatures,
    location_classes := Option.some ["Kharghar"] }

/-- A row whose price-per-square-foot is exactly 2000, the lower boundary
of the spec's closed interval. -/
def boundaryRow : Row :=
  { location := "Kharghar", area_sqft := 1000, bhk := 2, bathrooms := 2,
    floor := 5, total_floors := 20, age_of_property := 5, parking := 1,
    lift := 1, actual_price := 2000000 }

/-! ## Supporting lemmas -/

/-- The numeral in `floatOverflowThreshold` is `2 ^ 1024`. -/
lemma floatOverflowThreshold_eq : floatOverflowThreshold = 2 ^ 1024 := by
  rw [show (1024 : ℕ) = 256 * 4 from rfl, pow_mul]
  norm_num [floatOverflowThreshold]

lemma conf_mem (σ ms : ℚ) :
    1/2 ≤ confidence_score σ ms ∧ confidence_score σ ms ≤ 1 := by
  unfold confidence_score
  exact ⟨le_max_left _ _, max_le (by norm_num) (min_le_left _ _)⟩

lemma margin_mem (c : ℚ) (h1 : 1/2 ≤ c) (h2 : c ≤ 1) :
    8/100 ≤ price_margin c ∧ price_margin c ≤ 12/100 := by
  unfold price_margin
  constructor <;> linarith

lemma conf_eq_clamp (σ ms : ℚ) :
    confidence_score σ ms = clamp (1 - σ / ms) (1/2) 1 := by
  unfold confidence_score clamp
  rw [max_min_distrib_left, max_eq_right (by norm_num : (1/2 : ℚ) ≤ 1)]

lemma self_sub_half_le_pyRound (q : ℚ) : q - 1/2 ≤ (pyRound q : ℚ) := by
  unfold pyRound
  have hf : Int.fract q = q - ⌊q⌋ := rfl
  have h0 : (0 : ℚ) ≤ Int.fract q := Int.fract_nonneg q
  have h1 : Int.fract q < 1 := Int.fract_lt_one q
  rw [hf] at h0 h1
  split_ifs with ha hb hc
  · rw [hf] at ha; linarith
  · rw [hf] at hb; push_cast; linarith
  · rw [hf] at ha; linarith
  · rw [hf] at ha; push_cast; linarith

lemma pyRound_le_self_add_half (q : ℚ) : (pyRound q : ℚ) ≤ q + 1/2 := by
  unfold pyRound
  have hf : Int.fract q = q - ⌊q⌋ := rfl
  have h0 : (0 : ℚ) ≤ Int.fract q := Int.fract_nonneg q
  have h1 : Int.fract q < 1 := Int.fract_lt_one q
  rw [hf] at h0 h1
  split_ifs with ha hb hc
  · rw [hf] at ha; linarith
  · rw [hf] at ha hb; push_cast; linarith
  · rw [hf] at ha hb; linarith
  · rw [hf] at ha hb; push_cast; linarith

lemma pyRound_lt_pyRound (a b : ℚ) (h : a + 1 < b) : pyRound a < pyRound b := by
  have h1 := pyRound_le_self_add_half a
  have h2 := self_sub_half_le_pyRound b
  have : (pyRound a : ℚ) < (pyRound b : ℚ) := by linarith
  exact_mod_cast this

lemma pyRound2_mem (c : ℚ) (h1 : 1/2 ≤ c) (h2 : c ≤ 1) :
    1/2 ≤ pyRound2 c ∧ pyRound2 c ≤ 1 := by
  unfold pyRound2
  have hl := self_sub_half_le_pyRound (c * 100)
  have hu := pyRound_le_self_add_half (c * 100)
  have h50 : (50 : ℤ) ≤ pyRound (c * 100) := by
    have h49 : (49 : ℚ) < (pyRound (c * 100) : ℚ) := by linarith
    have : (49 : ℤ) < pyRound (c * 100) := by exact_mod_cast h49
    omega
  have h100 : pyRound (c * 100) ≤ (100 : ℤ) := by
    have h101 : (pyRound (c * 100) : ℚ) < 101 := by linarith
    have : pyRound (c * 100) < (101 : ℤ) := by exact_mod_cast h101
    omega
  have h50q : (50 : ℚ) ≤ (pyRound (c * 100) : ℚ) := by exact_mod_cast h50
  have h100q : ((pyRound (c * 100) : ℤ) : ℚ) ≤ 100 := by exact_mod_cast h100
  constructor
  · rw [le_div_iff₀ (by norm_num : (0:ℚ) < 100)]; linarith
  · rw [div_le_one (by norm_num : (0:ℚ) < 100)]; linarith

lemma load_model_initialized (s : Inst) (art : Option Bundle) :
    ((load_model s art).2).initialized = s.initialized := by
  rcases art with _ | b
  · rfl
  · rcases b with ⟨m, sc, le, fs, lc, st, tm, ts, fi⟩
    rcases m with _ | m
    · rfl
    rcases sc with _ | sc
    · rfl
    rcases le with _ | le
    · rfl
    rcases fs with _ | fs
    · rfl
    rcases lc with _ | lc <;> rfl

lemma load_model_ok_loaded (s : Inst) (art : Option Bundle)
    (h : (load_model s art).1 = Option.none) :
    is_loaded (load_model s art).2 = true := by
  rcases art with _ | b
  · exact Option.noConfusion h
  · rcases b with ⟨m, sc, le, fs, lc, st, tm, ts, fi⟩
    rcases m with _ | m
    · exact Option.noConfusion h
    rcases sc with _ | sc
    · exact Option.noConfusion h
    rcases le with _ | le
    · exact Option.noConfusion h
    rcases fs with _ | fs
    · exact Option.noConfusion h
    rcases lc with _ | lc
    · exact Option.noConfusion h
    · rfl

/-! ## Claim theorems -/

/-- C2 counterexample: a fresh, unloaded engine fed a bundle that has the
`model` key but lacks `scaler` sees `load_model` raise (`KeyError
"scaler"`), yet `is_loaded()` reports `true` afterwards — the engine does
not remain Unloaded after the failed load, refuting the claimed atomicity
at this concrete input. -/
theorem load_model_not_atomic_cex :
    is_loaded (init_engine freshInst) = false ∧
    (load_model (init_engine freshInst) (Option.some corruptBundle)).1
        = Option.some (PyExn.keyError "scaler") ∧
    is_loaded (load_model (init_engine freshInst) (Option.some corruptBundle)).2
        = true :=
  ⟨rfl, rfl, rfl⟩

/-- C2 (amended): `load_model` behaves atomically only when the failure
precedes the first assignment.  A missing artifact or a bundle without the
`model` key leaves the state unchanged; a bundle with all five
directly-indexed keys loads fully and the engine is Loaded; but whenever
the `model` key is present it is assigned immediately, so a later missing
key raises while leaving the engine reporting loaded. -/
theorem load_model_partial_atomicity (s : Inst) (b : Bundle) :
    load_model s Option.none = (Option.some PyExn.fileNotFoundError, s) ∧
    (b.model = Option.none →
      load_model s (Option.some b) = (Option.some (PyExn.keyError "model"), s)) ∧
    (has_required_keys b = true →
      (load_model s (Option.some b)).1 = Option.none ∧
      is_loaded (load_model s (Option.some b)).2 = true) ∧
    (b.model.isSome = true →
      ((load_model s (Option.some b)).2).model = b.model) := by
  refine ⟨rfl, ?_, ?_, ?_⟩
  · intro h
    rcases b with ⟨m, sc, le, fs, lc, st, tm, ts, fi⟩
    rcases m with _ | m
    · rfl
    · exact Option.noConfusion h
  · intro h
    rcases b with ⟨m, sc, le, fs, lc, st, tm, ts, fi⟩
    rcases m with _ | m
    · simp [has_required_keys] at h
    rcases sc with _ | sc
    · simp [has_required_keys] at h
    rcases le with _ | le
    · simp [has_required_keys] at h
    rcases fs with _ | fs
    · simp [has_required_keys] at h
    rcases lc with _ | lc
    · simp [has_required_keys] at h
    · exact ⟨rfl, rfl⟩
  · intro h
    rcases b with ⟨m, sc, le, fs, lc, st, tm, ts, fi⟩
    rcases m with _ | m
    · simp at h
    rcases sc with _ | sc
    · rfl
    rcases le with _ | le
    · rfl
    rcases fs with _ | fs
    · rfl
    rcases lc with _ | lc <;> rfl

/-- C2 witness: the three atomic-failure/success modes of
`load_model_partial_atomicity` instantiated on a fresh engine with
concrete artifacts. -/
theorem load_model_partial_atomicity_witness :
    load_model (init_engine freshInst) Option.none
        = (Option.some PyExn.fileNotFoundError, init_engine freshInst) ∧
    load_model (init_engine freshInst) (Option.some emptyBundle)
        = (Option.some (PyExn.keyError "model"), init_engine freshInst) ∧
    (load_model (init_engine freshInst) (Option.some minimalBundle)).1
        = Option.none :=
  ⟨(load_model_partial_atomicity (init_engine freshInst) emptyBundle).1,
   (load_model_partial_atomicity (init_engine freshInst) emptyBundle).2.1 rfl,
   ((load_model_partial_atomicity (init_engine freshInst) minimalBundle).2.2.1
      rfl).1⟩

/-- C3 counterexample: a bundle carrying only `model`, `scaler`,
`label_encoder`, `features` and `location_classes` — with
`location_stats`, `train_metrics`, `test_metrics` and
`feature_importance` all absent — loads successfully, refuting the claim
that a bundle missing any of the nine listed keys fails to load. -/
theorem load_model_optional_keys_cex :
    minimalBundle.location_stats = Option.none ∧
    minimalBundle.train_metrics = Option.none ∧
    minimalBundle.test_metrics = Option.none ∧
    minimalBundle.feature_importance = Option.none ∧
    (load_model (init_engine freshInst) (Option.some minimalBundle)).1
        = Option.none ∧
    is_loaded (load_model (init_engine freshInst) (Option.some minimalBundle)).2
        = true :=
  ⟨rfl, rfl, rfl, rfl, rfl, rfl⟩

/-- C3 (amended): `load_model` on an existing artifact succeeds exactly
when the five directly-indexed keys `model`, `scaler`, `label_encoder`,
`features`, `location_classes` are all present; the four `.get`-defaulted
keys (`location_stats`, `train_metrics`, `test_metrics`,
`feature_importance`) are optional. -/
theorem load_model_required_keys_iff (s : Inst) (b : Bundle) :
    (load_model s (Option.some b)).1 = Option.none ↔
      has_required_keys b = true := by
  rcases b with ⟨m, sc, le, fs, lc, st, tm, ts, fi⟩
  rcases m with _ | m <;> rcases sc with _ | sc <;> rcases le with _ | le <;>
    rcases fs with _ | fs <;> rcases lc with _ | lc <;>
      simp [load_model, has_required_keys]

/-- C3 witness: `load_model_required_keys_iff` applied to the concrete
five-key bundle. -/
theorem load_model_required_keys_iff_witness :
    (load_model (init_engine freshInst) (Option.some minimalBundle)).1
        = Option.none :=
  (load_model_required_keys_iff (init_engine freshInst) minimalBundle).mpr rfl

/-- C4: evaluating the cleaners at the failing inputs.  `clean_bhk` and
`clean_floor` parse `int(float(_))` inside a `try` that catches only
`ValueError`; an input whose float value is infinite makes `int()` raise
`OverflowError`, which escapes — the cleaners are not total, contradicting
both the spec ("never throws for malformed input") and the cleaners' own
docstrings ("or None if invalid"). -/
theorem clean_bhk_floor_overflow_on_inf :
    clean_bhk (RawVal.str "inf") = Except.error PyExn.overflowError ∧
    clean_floor (RawVal.str "inf") = Except.error PyExn.overflowError ∧
    clean_bhk (RawVal.str " Infinity ") = Except.error PyExn.overflowError ∧
    clean_floor (RawVal.float PyFloat.inf) = Except.error PyExn.overflowError := by
  refine ⟨?_, ?_, ?_, ?_⟩ <;> with_unfolding_all rfl

/-- C7 counterexample: a row whose derived price-per-square-foot is
exactly 2000 — inside the closed interval `[2000, 50000]` the claim says
is kept — is dropped by step 12's strict `> 2000` filter. -/
theorem pps_boundary_row_dropped_cex :
    boundaryRow.actual_price / boundaryRow.area_sqft = 2000 ∧
    pps_filter_step [boundaryRow] = [] := by
  constructor <;> with_unfolding_all rfl

/-- C7 (amended): step 12 keeps a row exactly when its derived
price-per-square-foot lies in the open interval `(2000, 50000)` — rows at
exactly 2000 or 50000 are dropped — and the derived column is absent from
the result (the output rows are the input `Row` values themselves). -/
theorem pps_filter_open_interval (rows : List Row) :
    pps_filter_step rows
      = rows.filter (fun r =>
          decide ((2000 : ℚ) < r.actual_price / r.area_sqft) &&
            decide (r.actual_price / r.area_sqft < (50000 : ℚ))) := by
  induction rows with
  | nil => rfl
  | cons r t ih =>
      by_cases h1 : (2000 : ℚ) < r.actual_price / r.area_sqft <;>
        by_cases h2 : r.actual_price / r.area_sqft < (50000 : ℚ) <;>
          simp [pps_filter_step, List.filter_cons, h1, h2] <;>
            simpa [pps_filter_step] using ih

/-- C9: `predict` on an engine whose `model` attribute is `None` fails
with `RuntimeError` regardless of every other field and of the request —
the not-ready check precedes any access to bundle contents, so no
null-dereference can occur. -/
theorem predict_unloaded_not_ready
    (npStd : List ℚ → ℚ) (s : Inst) (loc : String) (area : ℚ)
    (bhk ba fl tf : ℤ) (age : ℚ) (pk lf : ℤ)
    (h : s.model = Option.none) :
    predict npStd s loc area bhk ba fl tf age pk lf
      = Except.error PyExn.runtimeError := by
  unfold predict
  rw [if_pos (show is_loaded s = false by simp [is_loaded, h])]

/-- C9 witness: a freshly initialized (unloaded) engine rejects the §8
scenario request with `RuntimeError`. -/
theorem predict_unloaded_not_ready_witness :
    predict demoStd (init_engine freshInst) "Kharghar" 1000 2 2 5 20 5 1 1
      = Except.error PyExn.runtimeError :=
  predict_unloaded_not_ready demoStd (init_engine freshInst) "Kharghar"
    1000 2 2 5 20 5 1 1 rfl

/-- C10: `PredictionEngine()` is a process-wide singleton.  Every
construction stores and returns the same object; constructing again when
`_initialized` is already true returns the existing state unchanged (the
repeated `__init__` returns early); and after a successful `load_model`
a further construction preserves the loaded state, with `is_loaded()`
still true. -/
theorem engine_singleton_construct :
    (∀ g : Option Inst,
        (engine_construct g).2 = Option.some (engine_construct g).1) ∧
    (∀ i : Inst, i.initialized = true →
        engine_construct (Option.some i) = (i, Option.some i)) ∧
    (∀ (i : Inst) (art : Option Bundle), i.initialized = true →
        (load_model i art).1 = Option.none →
        engine_construct (Option.some (load_model i art).2)
            = ((load_model i art).2, Option.some (load_model i art).2) ∧
          is_loaded (load_model i art).2 = true) := by
  refine ⟨?_, ?_, ?_⟩
  · intro g
    rcases g with _ | i <;> rfl
  · intro i h
    simp [engine_construct, init_engine, h]
  · intro i art h hok
    have h2 : ((load_model i art).2).initialized = true := by
      rw [load_model_initialized]; exact h
    exact ⟨by simp [engine_construct, init_engine, h2],
           load_model_ok_loaded _ _ hok⟩

/-- C10 witness: construct, load the five-key bundle, construct again —
the loaded state is preserved and the engine still reports loaded. -/
theorem engine_singleton_construct_witness :
    engine_construct
        (Option.some (load_model (init_engine freshInst)
          (Option.some minimalBundle)).2)
      = ((load_model (init_engine freshInst) (Option.some minimalBundle)).2,
         Option.some (load_model (init_engine freshInst)
           (Option.some minimalBundle)).2) ∧
    is_loaded (load_model (init_engine freshInst)
        (Option.some minimalBundle)).2 = true :=
  engine_singleton_construct.2.2 (init_engine freshInst)
    (Option.some minimalBundle) rfl rfl

/-- C1: the confidence score computed by `predict` (line 174) equals
`clamp(1 - stddev / (point_prediction * 0.15), 0.5, 1.0)`, lies in
`[0.5, 1.0]` for any staged-prediction standard deviation `≥ 0` (and any
positive point prediction, so the float division is defined), and the
resulting symmetric price-range margin `0.08 + (1 - confidence) * 0.04`
lies in `[0.08, 0.12]`; moreover every successful `predict` result carries
a confidence score in `[0.5, 1.0]`. -/
theorem confidence_clamped_and_margin_bounded :
    (∀ std_dev pp : ℚ, 0 ≤ std_dev → 0 < pp →
        confidence_score std_dev (pp * (15/100))
            = clamp (1 - std_dev / (pp * (15/100))) (1/2) 1 ∧
          1/2 ≤ confidence_score std_dev (pp * (15/100)) ∧
          confidence_score std_dev (pp * (15/100)) ≤ 1 ∧
          8/100 ≤ price_margin (confidence_score std_dev (pp * (15/100))) ∧
          price_margin (confidence_score std_dev (pp * (15/100))) ≤ 12/100) ∧
    (∀ (npStd : List ℚ → ℚ) (s : Inst) (loc : String) (area : ℚ)
        (bhk ba fl tf : ℤ) (age : ℚ) (pk lf : ℤ) (r : PredictResult),
        predict npStd s loc area bhk ba fl tf age pk lf = Except.ok r →
        1/2 ≤ r.confidence_score ∧ r.confidence_score ≤ 1) := by
  constructor
  · intro σ pp _ _
    have hc := conf_mem σ (pp * (15/100))
    have hm := margin_mem _ hc.1 hc.2
    exact ⟨conf_eq_clamp _ _, hc.1, hc.2, hm.1, hm.2⟩
  · intro npStd s loc area bhk ba fl tf age pk lf r h
    unfold predict at h
    dsimp only at h
    repeat' split at h
    all_goals
      first
        | exact Except.noConfusion h
        | (injection h with h2; subst h2;
           exact pyRound2_mem _ (conf_mem _ _).1 (conf_mem _ _).2)

/-- C1 witness: the bounds at `stddev = 0`, `point_prediction = 100`, and
the concrete successful prediction on `demoInst`. -/
theorem confidence_clamped_witness :
    (confidence_score 0 ((100 : ℚ) * (15/100))
        = clamp (1 - 0 / ((100 : ℚ) * (15/100))) (1/2) 1 ∧
      1/2 ≤ confidence_score 0 ((100 : ℚ) * (15/100)) ∧
      confidence_score 0 ((100 : ℚ) * (15/100)) ≤ 1 ∧
      8/100 ≤ price_margin (confidence_score 0 ((100 : ℚ) * (15/100))) ∧
      price_margin (confidence_score 0 ((100 : ℚ) * (15/100))) ≤ 12/100) ∧
    (1/2 ≤ demoResult.confidence_score ∧ demoResult.confidence_score ≤ 1) :=
  ⟨confidence_clamped_and_margin_bounded.1 0 100 le_rfl (by norm_num),
   confidence_clamped_and_margin_bounded.2 demoStd demoInst "Kharghar"
     1000 2 2 5 20 5 1 1 demoResult (by with_unfolding_all rfl)⟩

/-- C5: on a loaded engine whose only location is "Kharghar", the §8
end-to-end input (area 1000 sqft, 2 BHK, 2 bathrooms, floor 5 of 20,
age 5, parking and lift) yields a result with
`price_range.low < predicted_price < price_range.high` and
`price_per_sqft = round(predicted_price / 1000)`, for every black-box
model/scaler/encoder whose point prediction is at least 13 (so that the
≥ 8% margin survives the rounding to whole rupees; real prices are in the
millions). -/
theorem predict_kharghar_scenario
    (npStd : List ℚ → ℚ) (m : GBRModel) (sc : List (Option ℚ) → List ℚ)
    (le : String → ℚ) (stats : List (String × LocStats))
    (hpp : 13 ≤ m.predict (input_scaled_of sc standardFeatures
        (feature_values_of (le "Kharghar") 1000 2 2 5 20 5 1 1))) :
    ∃ r, predict npStd (mkLoadedInst m sc le ["Kharghar"] stats)
          "Kharghar" 1000 2 2 5 20 5 1 1 = Except.ok r ∧
      r.price_low < r.predicted_price ∧
      r.predicted_price < r.price_high ∧
      r.price_per_sqft
        = pyRound (m.predict (input_scaled_of sc standardFeatures
            (feature_values_of (le "Kharghar") 1000 2 2 5 20 5 1 1)) / 1000) := by
  set IS := input_scaled_of sc standardFeatures
      (feature_values_of (le "Kharghar") 1000 2 2 5 20 5 1 1) with hIS
  set pp := m.predict IS with hpp0
  have hpos : (0 : ℚ) < pp := by linarith
  have hns : pp * (15/100) ≠ 0 := (mul_pos hpos (by norm_num)).ne'
  unfold predict
  rw [if_neg (show ¬ is_loaded (mkLoadedInst m sc le ["Kharghar"] stats) = false
        by simp [mkLoadedInst, is_loaded]),
      if_pos (show "Kharghar" ∈ (mkLoadedInst m sc le ["Kharghar"] stats).location_classes
        by simp [mkLoadedInst])]
  dsimp only [mkLoadedInst]
  rw [← hIS, ← hpp0, if_neg hns]
  have h8 : 8/100 ≤ price_margin (confidence_score
      (npStd (lastN 20 (m.staged_predict IS))) (pp * (15/100))) :=
    (margin_mem _ (conf_mem _ _).1 (conf_mem _ _).2).1
  refine ⟨_, rfl, ?_, ?_, ?_⟩
  · apply pyRound_lt_pyRound
    nlinarith [h8, hpp]
  · apply pyRound_lt_pyRound
    nlinarith [h8, hpp]
  · rw [if_pos (by norm_num : (0:ℚ) < 1000)]

/-- C5 witness: the scenario on the trivial stand-in model, whose point
prediction is 5,000,000. -/
theorem predict_kharghar_scenario_witness :
    (13 : ℚ) ≤ demoModel.predict (input_scaled_of demoScaler standardFeatures
        (feature_values_of (demoEncoder "Kharghar") 1000 2 2 5 20 5 1 1)) ∧
    ∃ r, predict demoStd demoInst "Kharghar" 1000 2 2 5 20 5 1 1
          = Except.ok r ∧
      r.price_low < r.predicted_price ∧
      r.predicted_price < r.price_high ∧
      r.price_per_sqft
        = pyRound (demoModel.predict (input_scaled_of demoScaler standardFeatures
            (feature_values_of (demoEncoder "Kharghar") 1000 2 2 5 20 5 1 1)) / 1000) :=
  ⟨by show (13 : ℚ) ≤ 5000000; norm_num,
   predict_kharghar_scenario demoStd demoModel demoScaler demoEncoder []
     (by show (13 : ℚ) ≤ 5000000; norm_num)⟩

/-- C6: a loaded engine rejects any request whose location is not among
the bundle's `location_classes` (exact membership, no fallback) with
`ValueError`, and the outcome does not depend on the model — replacing the
model with any other leaves the same error, so the model is never
invoked. -/
theorem predict_unknown_location_rejected
    (npStd : List ℚ → ℚ) (s : Inst) (loc : String) (area : ℚ)
    (bhk ba fl tf : ℤ) (age : ℚ) (pk lf : ℤ)
    (hl : is_loaded s = true) (hloc : loc ∉ s.location_classes) :
    predict npStd s loc area bhk ba fl tf age pk lf
        = Except.error PyExn.valueError ∧
    ∀ m2 : GBRModel,
      predict npStd { s with model := Option.some m2 } loc area bhk ba fl tf
          age pk lf = Except.error PyExn.valueError := by
  constructor
  · unfold predict
    rw [if_neg (by simp [hl]), if_neg hloc]
  · intro m2
    unfold predict
    rw [if_neg (by simp [is_loaded]), if_neg hloc]

/-- C6 witness: a loaded bundle with `location_classes =
["Kharghar", "Vashi"]` rejects `predict(location = "Nerul", ...)`. -/
theorem predict_unknown_location_rejected_witness :
    predict demoStd (mkLoadedInst demoModel demoScaler demoEncoder
        ["Kharghar", "Vashi"] []) "Nerul" 1000 2 2 5 20 5 1 1
      = Except.error PyExn.valueError :=
  (predict_unknown_location_rejected demoStd
    (mkLoadedInst demoModel demoScaler demoEncoder ["Kharghar", "Vashi"] [])
    "Nerul" 1000 2 2 5 20 5 1 1 rfl (by decide)).1

/-- C8: `normalize_location` maps any string whose stripped, lowercased
form is an alias key to that alias's canonical name, and maps every string
whose stripped, lowercased form is not in the alias table — including
"Mumbai" and the empty string — to MISSING (`None`). -/
theorem normalize_location_alias_table :
    (∀ s k c : String, (k, c) ∈ LOCATION_ALIASES →
        pyLower (pyStrip s) = k →
        normalize_location (RawVal.str s) = Option.some c) ∧
    (∀ s : String,
        LOCATION_ALIASES.lookup (pyLower (pyStrip s)) = Option.none →
        normalize_location (RawVal.str s) = Option.none) ∧
    normalize_location (RawVal.str "Mumbai") = Option.none ∧
    normalize_location (RawVal.str "") = Option.none := by
  refine ⟨?_, ?_, by decide, by decide⟩
  · intro s k c hkc hs
    have hne : pyStrip s ≠ "" := by
      intro h0
      rw [h0] at hs
      have h2 : k = "" := by rw [← hs]; rfl
      subst h2
      have hmem := List.mem_map_of_mem Prod.fst hkc
      dsimp only at hmem
      exact absurd hmem (by decide)
    unfold normalize_location
    rw [if_neg (by simp [pdIsna])]
    simp only [pyStrOf]
    rw [if_neg hne, hs]
    fin_cases hkc <;> rfl
  · intro s h
    unfold normalize_location
    rw [if_neg (by simp [pdIsna])]
    simp only [pyStrOf]
    by_cases h0 : pyStrip s = ""
    · rw [if_pos h0]
    · rw [if_neg h0]
      exact h

/-- C8 witness: a case-and-whitespace variant of the "kharghar" alias
resolves to its canonical form, and a string outside the table maps to
MISSING. -/
theorem normalize_location_alias_table_witness :
    normalize_location (RawVal.str "  KHARGHAR ") = Option.some "Kharghar" ∧
    normalize_location (RawVal.str "New Mumbai") = Option.none :=
  ⟨normalize_location_alias_table.1 "  KHARGHAR " "kharghar" "Kharghar"
      (by decide) (by decide),
   normalize_location_alias_table.2.1 "New Mumbai" (by decide)⟩

end Pravah
